import Mathlib

/-!
Verification of the Rips-backend image-extraction gateway.

The repository consists of four near-duplicate Express handlers
(`src/server.js`, `src/unnamed/part_000`, `src/unnamed/part_001`,
`src/unnamed/part_002`).  `part_000` is logically identical to
`src/server.js` (only the prompt text and model name differ), so the
development embeds the three distinct handler variants:

* `serverJsProcessImage`  — `src/server.js` (and `part_000`),
* `part001ProcessImage`   — `src/unnamed/part_001`,
* `part002ProcessImage`   — `src/unnamed/part_002`.

Strings are modelled as Lean `String`s (lists of characters); the
JavaScript `String.prototype.replace(/pat/g, '')` used by the fence
cleanup is modelled by `replAll`, leftmost non-overlapping removal, and
`String.prototype.trim` by `trimL` over the ECMAScript whitespace set.
`JSON.parse` is modelled by `jsonParse`, a recursive-descent parser for
the JSON grammar (numbers are kept as their lexed token; object members
are kept as the parsed association list in order).
-/

/-- ECMAScript WhiteSpace ∪ LineTerminator, the set removed by
`String.prototype.trim`. -/
def isJsWs (c : Char) : Bool :=
  let n := c.toNat
  n = 0x9 || n = 0xA || n = 0xB || n = 0xC || n = 0xD || n = 0x20 || n = 0xA0 ||
  n = 0x1680 || (0x2000 ≤ n && n ≤ 0x200A) || n = 0x2028 || n = 0x2029 ||
  n = 0x202F || n = 0x205F || n = 0x3000 || n = 0xFEFF

/-- Left trim: drop leading JS whitespace. -/
def trimStartL (l : List Char) : List Char := l.dropWhile isJsWs

/-- Right trim: drop trailing JS whitespace. -/
def trimEndL (l : List Char) : List Char := (l.reverse.dropWhile isJsWs).reverse

/-- `String.prototype.trim`: drop whitespace from both ends. -/
def trimL (l : List Char) : List Char := trimEndL (trimStartL l)

/-- `trim` at the `String` level. -/
def trimS (s : String) : String := String.mk (trimL s.data)

/-- Auxiliary worker for `replAll`: `k` counts characters of a match that
remain to be skipped (removed from the output).  Structural recursion on
the list keeps the function kernel-reducible. -/
def replAllAux (pat : List Char) : Nat → List Char → List Char
  | _, [] => []
  | Nat.succ k, _ :: rest => replAllAux pat k rest
  | 0, c :: rest =>
    if pat.isPrefixOf (c :: rest) ∧ 0 < pat.length
    then replAllAux pat (pat.length - 1) rest
    else c :: replAllAux pat 0 rest

/-- JavaScript `s.replace(/pat/g, '')` for a constant pattern: remove the
leftmost occurrence, continue scanning after it (non-overlapping), and
leave everything else in place.  (The `0 < pat.length` guard is vacuous
for the two patterns used by the code.) -/
def replAll (pat s : List Char) : List Char := replAllAux pat 0 s

/-- The three-backtick fence pattern from `.replace(/```/g, '')`. -/
def fence : List Char := "```".toList

/-- The fenced-json pattern from `.replace(/```json/g, '')`. -/
def fenceJson : List Char := "```json".toList

/-- The cleanup from `src/server.js` lines 136–139 (identical in every
variant): remove every ` ```json `, then every ` ``` `, then trim. -/
def cleanL (l : List Char) : List Char := trimL (replAll fence (replAll fenceJson l))

/-- The cleanup at the `String` level (`cleanJson` / `jsonString` in the
source). -/
def cleanJsonS (s : String) : String := String.mk (cleanL s.data)

/-- Decidable substring search: does `pat` occur contiguously in `s`? -/
def hasSub (pat : List Char) : List Char → Bool
  | [] => pat.isPrefixOf []
  | c :: rest => pat.isPrefixOf (c :: rest) || hasSub pat rest

/-- Substring search at the `String` level. -/
def containsStr (pat s : String) : Bool := hasSub pat.data s.data

/-! ### Basic facts about `replAll` and `hasSub` -/

theorem replAllAux_skip (pat : List Char) :
    ∀ (s : List Char) (k : Nat), replAllAux pat k s = replAllAux pat 0 (s.drop k) := by
  intro s
  induction s with
  | nil => intro k; cases k <;> rfl
  | cons c rest ih =>
    intro k
    cases k with
    | zero => rfl
    | succ k => simpa [replAllAux] using ih k

theorem replAll_nil (pat : List Char) : replAll pat [] = [] := rfl

theorem replAll_cons (pat : List Char) (c : Char) (rest : List Char) :
    replAll pat (c :: rest) =
      if pat.isPrefixOf (c :: rest) ∧ 0 < pat.length
      then replAll pat (rest.drop (pat.length - 1))
      else c :: replAll pat rest := by
  show replAllAux pat 0 (c :: rest) = _
  rw [replAllAux]
  split
  · exact replAllAux_skip pat rest (pat.length - 1)
  · rfl

theorem hasSub_nil (pat : List Char) : hasSub pat [] = pat.isPrefixOf [] := rfl

theorem hasSub_cons (pat : List Char) (c : Char) (rest : List Char) :
    hasSub pat (c :: rest) = (pat.isPrefixOf (c :: rest) || hasSub pat rest) := rfl

theorem replAll_of_not_hasSub (pat : List Char) :
    ∀ (s : List Char), hasSub pat s = false → replAll pat s = s := by
  intro s
  induction s with
  | nil => intro _; rfl
  | cons c rest ih =>
    intro h
    rw [hasSub_cons, Bool.or_eq_false_iff] at h
    rw [replAll_cons]
    rw [if_neg (by simp [h.1])]
    rw [ih h.2]

theorem hasSub_append_left (pat : List Char) (l : List Char) :
    ∀ (s : List Char), hasSub pat s = true → hasSub pat (l ++ s) = true := by
  induction l with
  | nil => intro s h; simpa using h
  | cons c l ih =>
    intro s h
    rw [List.cons_append, hasSub_cons, Bool.or_eq_true]
    exact Or.inr (ih s h)

theorem hasSub_pat_nil (s : List Char) : hasSub [] s = true := by
  cases s <;> simp [hasSub, List.isPrefixOf]

theorem hasSub_append_right (pat : List Char) :
    ∀ (s r : List Char), hasSub pat s = true → hasSub pat (s ++ r) = true := by
  intro s
  induction s with
  | nil =>
    intro r h
    rw [hasSub_nil] at h
    have hp : pat = [] := by
      cases pat with
      | nil => rfl
      | cons a as => simp [List.isPrefixOf] at h
    subst hp
    simpa using hasSub_pat_nil r
  | cons c s ih =>
    intro r h
    rw [hasSub_cons, Bool.or_eq_true] at h
    rw [List.cons_append, hasSub_cons, Bool.or_eq_true]
    rcases h with h₁ | h₂
    · left
      have h₁' : pat <+: (c :: s) := List.isPrefixOf_iff_prefix.mp h₁
      have h₁'' : pat <+: (c :: s) ++ r := h₁'.trans (List.prefix_append _ _)
      rw [List.cons_append] at h₁''
      exact List.isPrefixOf_iff_prefix.mpr h₁''
    · right
      exact ih r h₂

theorem hasSub_of_infix (pat t t' : List Char) (hinf : t <:+: t')
    (h : hasSub pat t = true) : hasSub pat t' = true := by
  obtain ⟨l, r, hlr⟩ := hinf
  have h₂ := hasSub_append_left pat l (t ++ r) (hasSub_append_right pat t r h)
  rw [← List.append_assoc] at h₂
  rwa [hlr] at h₂

theorem hasSub_mono_pat (p₁ p₂ : List Char) (hp : p₁ <+: p₂) :
    ∀ (s : List Char), hasSub p₂ s = true → hasSub p₁ s = true := by
  intro s
  induction s with
  | nil =>
    intro h
    rw [hasSub_nil] at h ⊢
    have : p₂ = [] := by
      cases p₂ with
      | nil => rfl
      | cons a as => simp [List.isPrefixOf] at h
    subst this
    have : p₁ = [] := List.prefix_nil.mp hp
    simp [this, List.isPrefixOf]
  | cons c s ih =>
    intro h
    rw [hasSub_cons, Bool.or_eq_true] at h ⊢
    rcases h with h₁ | h₂
    · exact Or.inl (List.isPrefixOf_iff_prefix.mpr
        (hp.trans (List.isPrefixOf_iff_prefix.mp h₁)))
    · exact Or.inr (ih h₂)

/-! ### The fence-stripping cleanup is idempotent -/

theorem fence_eq : fence = ['`', '`', '`'] := rfl

theorem fenceJson_eq : fenceJson = fence ++ ['j', 's', 'o', 'n'] := rfl

/-- If two leading backticks are not available in `rest`, they are not
available in its fence-stripped form either. -/
theorem bt2_not_prefix_replAll (rest : List Char)
    (h : ['`', '`'].isPrefixOf rest = false) :
    ['`', '`'].isPrefixOf (replAll fence rest) = false := by
  match rest with
  | [] => rfl
  | d :: rest' =>
    by_cases hd : d = '`'
    · subst hd
      have h₁ : ['`'].isPrefixOf rest' = false := by
        simpa [List.isPrefixOf] using h
      match rest' with
      | [] => decide
      | e :: rest'' =>
        have he : ('`' == e) = false := by
          simpa [List.isPrefixOf] using h₁
        rw [replAll_cons, if_neg (by simp [fence_eq, List.isPrefixOf, he])]
        rw [replAll_cons, if_neg (by simp [fence_eq, List.isPrefixOf, he])]
        simp [List.isPrefixOf, he]
    · have hd' : ('`' == d) = false := beq_eq_false_iff_ne.mpr (Ne.symm hd)
      rw [replAll_cons, if_neg (by simp [fence_eq, List.isPrefixOf, hd'])]
      simp [List.isPrefixOf, hd']

/-- Stripping every ` ``` ` leaves a string with no ` ``` ` occurrence:
every remaining run of backticks has length at most two. -/
theorem replAll_fence_no_fence : ∀ (n : Nat) (s : List Char), s.length ≤ n →
    hasSub fence (replAll fence s) = false := by
  intro n
  induction n with
  | zero =>
    intro s hs
    have h0 : s = [] := List.length_eq_zero.mp (Nat.le_zero.mp hs)
    subst h0
    rfl
  | succ n ih =>
    intro s hs
    match s with
    | [] => rfl
    | c :: rest =>
      rw [replAll_cons]
      by_cases hp : fence.isPrefixOf (c :: rest) = true
      · rw [if_pos ⟨hp, by decide⟩]
        refine ih _ ?_
        have := List.length_drop (fence.length - 1) rest
        simp only [List.length_cons] at hs
        omega
      · rw [if_neg (by simp [hp])]
        rw [hasSub_cons, Bool.or_eq_false_iff]
        refine ⟨?_, ih rest (by simpa using Nat.le_of_succ_le_succ hs)⟩
        by_cases hc : c = '`'
        · subst hc
          have h₂ : ['`', '`'].isPrefixOf rest = false := by
            have hp' : fence.isPrefixOf ('`' :: rest) = false := Bool.eq_false_iff.mpr hp
            simpa [fence_eq, List.isPrefixOf] using hp'
          have h₃ := bt2_not_prefix_replAll rest h₂
          rw [fence_eq] at h₃
          simp [fence_eq, List.isPrefixOf, h₃]
        · have hc' : ('`' == c) = false := beq_eq_false_iff_ne.mpr (Ne.symm hc)
          simp [fence_eq, List.isPrefixOf, hc']

theorem replAll_fence_no_fence_all (s : List Char) :
    hasSub fence (replAll fence s) = false :=
  replAll_fence_no_fence s.length s le_rfl

/-- A prefix of a list whose head does not satisfy `p` is itself fixed by
`dropWhile p`. -/
theorem dropWhile_eq_self_of_prefix (p : Char → Bool) (v u : List Char)
    (hvu : v <+: u) (hu : u.dropWhile p = u) : v.dropWhile p = v := by
  cases v with
  | nil => rfl
  | cons c v' =>
    obtain ⟨t, ht⟩ := hvu
    rw [← ht, List.cons_append, List.dropWhile_cons] at hu
    by_cases hc : p c
    · rw [if_pos hc] at hu
      have h₁ := congrArg List.length hu
      have h₂ : (List.dropWhile p (v' ++ t)).length ≤ (v' ++ t).length :=
        (List.dropWhile_sublist p).length_le
      simp only [List.length_cons] at h₁
      omega
    · rw [List.dropWhile_cons, if_neg hc]

theorem trimEndL_eq_rdropWhile (l : List Char) :
    trimEndL l = List.rdropWhile isJsWs l := rfl

theorem trimL_idem (l : List Char) : trimL (trimL l) = trimL l := by
  show trimEndL (trimStartL (trimEndL (trimStartL l))) = trimEndL (trimStartL l)
  have hufix : trimStartL (trimStartL l) = trimStartL l :=
    List.dropWhile_idempotent isJsWs l
  have hpref : trimEndL (trimStartL l) <+: trimStartL l := by
    rw [trimEndL_eq_rdropWhile]
    exact List.rdropWhile_prefix isJsWs (trimStartL l)
  have h₁ : trimStartL (trimEndL (trimStartL l)) = trimEndL (trimStartL l) :=
    dropWhile_eq_self_of_prefix isJsWs _ _ hpref hufix
  rw [h₁, trimEndL_eq_rdropWhile, trimEndL_eq_rdropWhile,
    List.rdropWhile_idempotent]

theorem trimL_infix_self (l : List Char) : trimL l <:+: l := by
  obtain ⟨r, hr⟩ : trimL l <+: trimStartL l := by
    rw [show trimL l = trimEndL (trimStartL l) from rfl, trimEndL_eq_rdropWhile]
    exact List.rdropWhile_prefix isJsWs (trimStartL l)
  obtain ⟨s, hs⟩ : trimStartL l <:+ l := List.dropWhile_suffix isJsWs
  exact ⟨s, r, by rw [List.append_assoc, hr, hs]⟩

theorem cleanL_no_fence (l : List Char) : hasSub fence (cleanL l) = false := by
  cases hb : hasSub fence (cleanL l) with
  | false => rfl
  | true =>
    have h₁ := hasSub_of_infix fence _ _
      (trimL_infix_self (replAll fence (replAll fenceJson l))) hb
    simp [replAll_fence_no_fence_all] at h₁

theorem cleanL_no_fenceJson (l : List Char) : hasSub fenceJson (cleanL l) = false := by
  cases hb : hasSub fenceJson (cleanL l) with
  | false => rfl
  | true =>
    have h₁ := hasSub_mono_pat fence fenceJson ⟨['j', 's', 'o', 'n'], rfl⟩ _ hb
    simp [cleanL_no_fence] at h₁

theorem cleanL_idem (l : List Char) : cleanL (cleanL l) = cleanL l := by
  show trimL (replAll fence (replAll fenceJson (cleanL l))) = cleanL l
  rw [replAll_of_not_hasSub fenceJson _ (cleanL_no_fenceJson l),
    replAll_of_not_hasSub fence _ (cleanL_no_fence l)]
  exact trimL_idem _

theorem cleanL_of_no_fence (l : List Char) (h : hasSub fence l = false) :
    cleanL l = trimL l := by
  have h₂ : hasSub fenceJson l = false := by
    cases hb : hasSub fenceJson l with
    | false => rfl
    | true =>
      have h₃ := hasSub_mono_pat fence fenceJson ⟨['j', 's', 'o', 'n'], rfl⟩ _ hb
      rw [h] at h₃
      exact absurd h₃ (by simp)
  show trimL (replAll fence (replAll fenceJson l)) = trimL l
  rw [replAll_of_not_hasSub fenceJson _ h₂, replAll_of_not_hasSub fence _ h]

theorem cleanJsonS_trim_of_no_fence (s : String) (h : hasSub fence s.data = false) :
    cleanJsonS (trimS s) = trimS s := by
  show String.mk (cleanL (trimL s.data)) = String.mk (trimL s.data)
  have h₂ : hasSub fence (trimL s.data) = false := by
    cases hb : hasSub fence (trimL s.data) with
    | false => rfl
    | true =>
      have h₃ := hasSub_of_infix fence _ _ (trimL_infix_self s.data) hb
      rw [h] at h₃
      exact absurd h₃ (by simp)
  rw [cleanL_of_no_fence _ h₂, trimL_idem]

/-! ### JSON values and `JSON.parse` -/

/-- JSON values as produced by `JSON.parse`.  Numbers keep their lexed
token (double rounding is not modelled; no claim depends on numeric
identities).  Objects keep the member list in parse order; duplicate-key
normalisation is likewise not exercised by any claim. -/
inductive Json : Type where
  | null : Json
  | bool : Bool → Json
  | num : String → Json
  | str : String → Json
  | arr : List Json → Json
  | obj : List (String × Json) → Json

/-- The `.length` access of `src/server.js` line 153 throws a `TypeError`
exactly when the parsed value is `null`. -/
def isNullJson : Json → Bool
  | .null => true
  | _ => false

/-- JSON-grammar insignificant whitespace. -/
def isJsonWs (c : Char) : Bool := c = ' ' || c = '\t' || c = '\n' || c = '\r'

def skipJsonWs (l : List Char) : List Char := l.dropWhile isJsonWs

def hexVal (c : Char) : Option Nat :=
  if '0' ≤ c ∧ c ≤ '9' then some (c.toNat - 48)
  else if 'a' ≤ c ∧ c ≤ 'f' then some (c.toNat - 87)
  else if 'A' ≤ c ∧ c ≤ 'F' then some (c.toNat - 55)
  else none

def escChar (e : Char) : Option Char :=
  if e = '"' then some '"'
  else if e = '\\' then some '\\'
  else if e = '/' then some '/'
  else if e = 'b' then some '\x08'
  else if e = 'f' then some '\x0c'
  else if e = 'n' then some '\n'
  else if e = 'r' then some '\r'
  else if e = 't' then some '\t'
  else none

/-- Body of a JSON string literal, after the opening quote: returns the
decoded characters and the remainder after the closing quote.  `\uXXXX`
escapes are decoded; a surrogate pair yields the combined scalar.  (A
lone surrogate, which JavaScript would keep as an unpaired UTF-16 unit,
is not representable as a Lean `Char` and is rejected; no claim involves
one.) -/
def parseStrBody : List Char → Option (List Char × List Char)
  | [] => none
  | c :: rest =>
    if c = '"' then some ([], rest)
    else if c = '\\' then
      match rest with
      | [] => none
      | 'u' :: h₁ :: h₂ :: h₃ :: h₄ :: rest₂ =>
        match hexVal h₁, hexVal h₂, hexVal h₃, hexVal h₄ with
        | some a, some b, some c', some d =>
          let n := ((a * 16 + b) * 16 + c') * 16 + d
          if 0xD800 ≤ n ∧ n ≤ 0xDBFF then
            match rest₂ with
            | '\\' :: 'u' :: g₁ :: g₂ :: g₃ :: g₄ :: rest₃ =>
              match hexVal g₁, hexVal g₂, hexVal g₃, hexVal g₄ with
              | some a₂, some b₂, some c₂, some d₂ =>
                let m := ((a₂ * 16 + b₂) * 16 + c₂) * 16 + d₂
                if 0xDC00 ≤ m ∧ m ≤ 0xDFFF then
                  match parseStrBody rest₃ with
                  | some (cs, r) =>
                    some (Char.ofNat (0x10000 + (n - 0xD800) * 0x400 + (m - 0xDC00)) :: cs, r)
                  | none => none
                else none
              | _, _, _, _ => none
            | _ => none
          else if 0xDC00 ≤ n ∧ n ≤ 0xDFFF then none
          else
            match parseStrBody rest₂ with
            | some (cs, r) => some (Char.ofNat n :: cs, r)
            | none => none
        | _, _, _, _ => none
      | e :: rest₂ =>
        match escChar e with
        | some ch =>
          match parseStrBody rest₂ with
          | some (cs, r) => some (ch :: cs, r)
          | none => none
        | none => none
    else if c.toNat < 0x20 then none
    else
      match parseStrBody rest with
      | some (cs, r) => some (c :: cs, r)
      | none => none

/-- Lex one JSON number token (sign, integer part, optional fraction and
exponent), returning the token characters and the remainder. -/
def parseNumToken (s : List Char) : Option (List Char × List Char) :=
  let signAndRest : List Char × List Char :=
    match s with
    | '-' :: r => (['-'], r)
    | _ => ([], s)
  match signAndRest.2 with
  | [] => none
  | c :: r =>
    if ¬ c.isDigit then none
    else
      let intAndRest : List Char × List Char :=
        if c = '0' then ([c], r)
        else (c :: r.takeWhile Char.isDigit, r.dropWhile Char.isDigit)
      let fracAndRest : Option (List Char × List Char) :=
        match intAndRest.2 with
        | '.' :: r₂ =>
          let ds := r₂.takeWhile Char.isDigit
          if ds = [] then none else some ('.' :: ds, r₂.dropWhile Char.isDigit)
        | _ => some ([], intAndRest.2)
      match fracAndRest with
      | none => none
      | some (fracPart, r₃) =>
        let expAndRest : Option (List Char × List Char) :=
          match r₃ with
          | e :: r₄ =>
            if e = 'e' ∨ e = 'E' then
              let sgnAndRest : List Char × List Char :=
                match r₄ with
                | '+' :: r₅ => (['+'], r₅)
                | '-' :: r₅ => (['-'], r₅)
                | _ => ([], r₄)
              let ds := sgnAndRest.2.takeWhile Char.isDigit
              if ds = [] then none
              else some (e :: (sgnAndRest.1 ++ ds), sgnAndRest.2.dropWhile Char.isDigit)
            else some ([], r₃)
          | [] => some ([], [])
        match expAndRest with
        | none => none
        | some (expPart, r₆) =>
          some (signAndRest.1 ++ intAndRest.1 ++ fracPart ++ expPart, r₆)

mutual

/-- Recursive-descent JSON value parser; `fuel` bounds the recursion depth
and `jsonParse` supplies enough for any input. -/
def parseVal : Nat → List Char → Option (Json × List Char)
  | 0, _ => none
  | Nat.succ fuel, s₀ =>
    let s := skipJsonWs s₀
    if "null".toList.isPrefixOf s then some (Json.null, s.drop 4)
    else if "true".toList.isPrefixOf s then some (Json.bool true, s.drop 4)
    else if "false".toList.isPrefixOf s then some (Json.bool false, s.drop 5)
    else
      match s with
      | [] => none
      | '"' :: rest =>
        match parseStrBody rest with
        | some (cs, r) => some (Json.str (String.mk cs), r)
        | none => none
      | '[' :: rest =>
        match skipJsonWs rest with
        | ']' :: r₂ => some (Json.arr [], r₂)
        | r₁ =>
          match parseArrItems fuel r₁ with
          | some (vs, r₂) => some (Json.arr vs, r₂)
          | none => none
      | '\x7b' :: rest =>
        match skipJsonWs rest with
        | '\x7d' :: r₂ => some (Json.obj [], r₂)
        | r₁ =>
          match parseObjItems fuel r₁ with
          | some (ms, r₂) => some (Json.obj ms, r₂)
          | none => none
      | _ =>
        match parseNumToken s with
        | some (tok, r) => some (Json.num (String.mk tok), r)
        | none => none

/-- Elements of a non-empty array, expecting a value then `,` or `]`. -/
def parseArrItems : Nat → List Char → Option (List Json × List Char)
  | 0, _ => none
  | Nat.succ fuel, s =>
    match parseVal fuel s with
    | none => none
    | some (v, r) =>
      match skipJsonWs r with
      | ',' :: r₂ =>
        match parseArrItems fuel r₂ with
        | some (vs, r₃) => some (v :: vs, r₃)
        | none => none
      | ']' :: r₂ => some ([v], r₂)
      | _ => none

/-- Members of a non-empty object: a string key, `:`, a value, then `,`
or the closing brace. -/
def parseObjItems : Nat → List Char → Option (List (String × Json) × List Char)
  | 0, _ => none
  | Nat.succ fuel, s =>
    match skipJsonWs s with
    | '"' :: rest =>
      match parseStrBody rest with
      | none => none
      | some (key, r) =>
        match skipJsonWs r with
        | ':' :: r₂ =>
          match parseVal fuel r₂ with
          | none => none
          | some (v, r₃) =>
            match skipJsonWs r₃ with
            | ',' :: r₅ =>
              match parseObjItems fuel r₅ with
              | some (ms, r₆) => some ((String.mk key, v) :: ms, r₆)
              | none => none
            | '\x7d' :: r₅ => some ([(String.mk key, v)], r₅)
            | _ => none
        | _ => none
    | _ => none

end

/-- `JSON.parse`: parse one value and require only whitespace to remain.
`none` models the thrown `SyntaxError`. -/
def jsonParse (s : String) : Option Json :=
  match parseVal (s.data.length + 1) s.data with
  | some (v, rest) => if skipJsonWs rest = [] then some v else none
  | none => none

/-! ### Request, environment, and upstream model -/

/-- The destructured request body `{ imageData, mediaType }`.  `none`
models an absent (or `null`) field; JavaScript truthiness additionally
rejects the empty string. -/
structure ReqBody where
  imageData : Option String
  mediaType : Option String

/-- The process environment slots the handlers read. -/
structure ServerEnv where
  geminiApiKey : Option String
  googleApiKey : Option String

/-- JavaScript truthiness of a possibly-absent string: `undefined`,
`null` and `""` are falsy. -/
def truthyStr : Option String → Bool
  | none => false
  | some s => !(s == "")

/-- JavaScript `a || b` on possibly-absent strings (first truthy value). -/
def jsOrStr (a b : Option String) : Option String :=
  if truthyStr a then a else b

/-- The `error` field of the upstream reply envelope (`json.error`). -/
structure GemError where
  message : Option String

/-- One element of `content.parts`. -/
structure GemPart where
  text : Option String

/-- `candidates[i].content`. -/
structure GemContent where
  parts : List GemPart

/-- One element of `candidates`. -/
structure GemCandidate where
  content : Option GemContent
  finishReason : Option String

/-- `promptFeedback`. -/
structure GemFeedback where
  blockReason : Option String

/-- The decoded upstream reply envelope.  (A body that is not valid JSON
would make `response.json()` reject, which reaches the same catch-all as
a transport failure; such bodies are therefore subsumed under
`UpstreamOutcome.transportError`.) -/
structure GeminiJson where
  error : Option GemError
  candidates : Option (List GemCandidate)
  promptFeedback : Option GemFeedback

/-- Outcome of the single `fetch` to the inference endpoint:
either the promise rejects (transport failure) or a reply arrives with
an HTTP status, a body text (used by `response.text()`), and the decoded
envelope (used by `response.json()`). -/
inductive UpstreamOutcome : Type where
  | transportError : String → UpstreamOutcome
  | reply : Nat → String → GeminiJson → UpstreamOutcome

/-- An HTTP response as produced by `res.status(...).json(...)`. -/
structure HttpResponse where
  status : Nat
  body : Json

/-- The condition `json.promptFeedback && json.promptFeedback.blockReason`. -/
def promptFeedbackBlocked (gj : GeminiJson) : Bool :=
  match gj.promptFeedback with
  | none => false
  | some pf => truthyStr pf.blockReason

/-- The value `json.promptFeedback.blockReason` as interpolated into the
content-blocked message (only reached when the check above passed). -/
def blockReasonStr (gj : GeminiJson) : String :=
  match gj.promptFeedback with
  | none => ""
  | some pf => pf.blockReason.getD ""

/-- The chained access `candidate.content.parts[0].text` of
`src/server.js` line 133 (no optional chaining): a missing step throws a
`TypeError`, modelled as `.error` carrying the Node message. -/
def textOfCandidate (cand : GemCandidate) : Except String String :=
  match cand.content with
  | none => .error "Cannot read properties of undefined (reading 'parts')"
  | some ct =>
    match ct.parts with
    | [] => .error "Cannot read properties of undefined (reading 'text')"
    | p :: _ =>
      match p.text with
      | none => .error "Cannot read properties of undefined (reading 'trim')"
      | some t => .ok t

/-- The optional-chained access
`data.candidates?.[0]?.content?.parts?.[0]?.text` of `part_001`. -/
def optionalText (gj : GeminiJson) : Option String :=
  match gj.candidates with
  | none => none
  | some [] => none
  | some (cand :: _) =>
    match cand.content with
    | none => none
    | some ct =>
      match ct.parts with
      | [] => none
      | p :: _ => p.text

/-- The string `candidate.finishReason === 'SAFETY' ||
candidate.finishReason === 'RECITATION'` check. -/
def finishReasonFiltered (cand : GemCandidate) : Bool :=
  cand.finishReason == some "SAFETY" || cand.finishReason == some "RECITATION"

/-! ### The `src/server.js` handler (identical logic in `part_000`) -/

/-- The `note` field attached to every 500 response of `src/server.js`. -/
def serverJsNote : String :=
  "Verifica que la API key esté configurada en Vercel Environment Variables"

/-- The catch-all of `src/server.js` lines 156–162:
`res.status(500).json({ error: error.message, note: ... })`. -/
def serverJsErr500 (msg : String) : HttpResponse :=
  ⟨500, Json.obj [("error", Json.str msg), ("note", Json.str serverJsNote)]⟩

/-- Message thrown by the missing-key check (`src/server.js` line 43). -/
def serverJsKeyMissingMsg : String :=
  "API key no está configurada. Verifica las variables de entorno en Vercel."

/-- Message thrown by the candidates check (`src/server.js` line 118). -/
def invalidModelRespMsg : String :=
  "Respuesta inválida del modelo. Verifica los logs para más detalles."

/-- Node's `TypeError` message for `parsed.length` when
`JSON.parse` returned `null` (`src/server.js` line 153). -/
def nullLengthTypeErrorMsg : String :=
  "Cannot read properties of null (reading 'length')"

/-- `src/server.js` lines 141–154: parse the cleaned text; on failure
return 400 with the raw cleaned text; on success log `parsed.length`
(which throws for `null`, reaching the catch-all) and return the parsed
value verbatim. -/
def serverJsRespond (cleaned : String) : HttpResponse :=
  match jsonParse cleaned with
  | none =>
    ⟨400, Json.obj [("error", Json.str "Error al parsear respuesta del modelo"),
                    ("raw", Json.str cleaned)]⟩
  | some parsed =>
    if isNullJson parsed then serverJsErr500 nullLengthTypeErrorMsg
    else ⟨200, parsed⟩

/-- `src/server.js` lines 127–139 given the first candidate: the
finish-reason filter, the text access, and the fence cleanup of the
trimmed text. -/
def serverJsHandleCandidate (cand : GemCandidate) : HttpResponse :=
  if finishReasonFiltered cand then
    serverJsErr500 ("Contenido filtrado por: " ++ cand.finishReason.getD "")
  else
    match textOfCandidate cand with
    | .error m => serverJsErr500 m
    | .ok text => serverJsRespond (cleanJsonS (trimS text))

/-- `src/server.js` lines 104–154 given the decoded reply envelope:
`json.error`, then the candidates check, then the prompt-feedback block
check, then the first candidate. -/
def serverJsHandleReply (gj : GeminiJson) : HttpResponse :=
  match gj.error with
  | some e =>
    serverJsErr500 ("API Error: " ++ (if truthyStr e.message then e.message.getD "" else "Unknown error"))
  | none =>
    match gj.candidates with
    | none => serverJsErr500 invalidModelRespMsg
    | some [] => serverJsErr500 invalidModelRespMsg
    | some (cand :: _) =>
      if promptFeedbackBlocked gj then
        serverJsErr500 ("Contenido bloqueado por seguridad: " ++ blockReasonStr gj)
      else serverJsHandleCandidate cand

/-- The upstream outcome as seen from `src/server.js`: a rejected fetch
(or an undecodable body) reaches the catch-all; otherwise the decoded
envelope is processed.  The HTTP status is never consulted. -/
def serverJsHandleUpstream : UpstreamOutcome → HttpResponse
  | .transportError msg => serverJsErr500 msg
  | .reply _ _ gj => serverJsHandleReply gj

/-- The whole `POST /api/process-image` handler of `src/server.js`
(lines 26–163).  The second component records whether the upstream
`fetch` was performed.  Note there is no `imageData` presence check. -/
def serverJsProcessImage (_b : ReqBody) (env : ServerEnv) (u : UpstreamOutcome) :
    HttpResponse × Bool :=
  if !truthyStr (jsOrStr env.geminiApiKey env.googleApiKey) then
    (serverJsErr500 serverJsKeyMissingMsg, false)
  else
    (serverJsHandleUpstream u, true)

/-! ### The `part_001` handler -/

/-- `part_001`'s catch-all: `res.status(500).json({ error: error.message })`
(no `note` field). -/
def plainErr500 (msg : String) : HttpResponse :=
  ⟨500, Json.obj [("error", Json.str msg)]⟩

/-- The engine-specific `SyntaxError` message thrown by `JSON.parse` in
`part_001` line 77 and surfaced by its catch-all.  Its exact text is
V8-version specific and no claim depends on it; only the fact that the
response is a 500 without the raw text matters. -/
def jsonParseSyntaxErrorMessage (_cleaned : String) : String :=
  "Unexpected token in JSON"

/-- The `POST /api/process-image` handler of `part_001` (lines 26–85):
validates `imageData` presence, returns 500 directly on a missing
`GEMINI_API_KEY`, checks `response.ok`, reads the generated text by
optional chaining, cleans it, and parses it with no dedicated catch:
a parse failure reaches the generic catch-all as a 500. -/
def part001ProcessImage (b : ReqBody) (env : ServerEnv) (u : UpstreamOutcome) :
    HttpResponse × Bool :=
  if !truthyStr b.imageData then
    (⟨400, Json.obj [("error", Json.str "No image data provided")]⟩, false)
  else if !truthyStr env.geminiApiKey then
    (⟨500, Json.obj [("error", Json.str "Server configuration error: Missing API Key")]⟩, false)
  else
    match u with
    | .transportError msg => (plainErr500 msg, true)
    | .reply status text gj =>
      if !(200 ≤ status && status < 300) then
        (plainErr500 ("Gemini API Error: " ++ toString status ++ " - " ++ text), true)
      else
        match optionalText gj with
        | none => (plainErr500 "No data returned from AI", true)
        | some t =>
          if t == "" then (plainErr500 "No data returned from AI", true)
          else
            match jsonParse (cleanJsonS t) with
            | none => (plainErr500 (jsonParseSyntaxErrorMessage (cleanJsonS t)), true)
            | some patients => (⟨200, patients⟩, true)

/-! ### The `part_002` handler -/

/-- `part_002` lines 372–384: parse the cleaned text; 400 with the raw
cleaned text on failure, 200 verbatim on success (no `.length` access,
so `null` is returned as-is). -/
def part002Respond (cleaned : String) : HttpResponse :=
  match jsonParse cleaned with
  | none =>
    ⟨400, Json.obj [("error", Json.str "Error al parsear respuesta del modelo"),
                    ("raw", Json.str cleaned)]⟩
  | some parsed => ⟨200, parsed⟩

/-- `part_002` lines 352–384 after the block check: candidates check,
finish-reason filter, text access, cleanup, respond. -/
def part002Candidates (gj : GeminiJson) : HttpResponse :=
  match gj.candidates with
  | none => plainErr500 invalidModelRespMsg
  | some [] => plainErr500 invalidModelRespMsg
  | some (cand :: _) =>
    if finishReasonFiltered cand then
      plainErr500 ("Contenido filtrado por: " ++ cand.finishReason.getD "")
    else
      match textOfCandidate cand with
      | .error m => plainErr500 m
      | .ok text => part002Respond (cleanJsonS (trimS text))

/-- `part_002`'s reply processing: unlike `src/server.js` it checks
`promptFeedback.blockReason` BEFORE the candidates check, and it never
inspects `json.error` or the HTTP status. -/
def part002HandleReply (gj : GeminiJson) : HttpResponse :=
  if promptFeedbackBlocked gj then
    plainErr500 ("Contenido bloqueado por seguridad: " ++ blockReasonStr gj)
  else part002Candidates gj

/-- The `POST /api/process-image` handler of `part_002` (lines 294–390):
no `imageData` check; only `GEMINI_API_KEY` is consulted. -/
def part002ProcessImage (_b : ReqBody) (env : ServerEnv) (u : UpstreamOutcome) :
    HttpResponse × Bool :=
  if !truthyStr env.geminiApiKey then
    (plainErr500 "GEMINI_API_KEY no está configurada en .env", false)
  else
    match u with
    | .transportError msg => (plainErr500 msg, true)
    | .reply _ _ gj => (part002HandleReply gj, true)

/-! ### Routing (`src/server.js` middleware stack) -/

/-- Outcome of dispatching a request through the `src/server.js`
middleware stack. -/
inductive RouteOutcome : Type where
  | staticFile : RouteOutcome
  | processImage : RouteOutcome
  | health : RouteOutcome
  | notFound : HttpResponse → RouteOutcome

/-- The `src/server.js` middleware stack in registration order:
`express.static` (abstracted by the `staticServes` predicate over the
path), `POST /api/process-image`, `GET /api/health`, then the
`app.use('*')` catch-all answering 404 (lines 181–183).  Express's exact
path normalisation is immaterial here: the claim only concerns requests
matching no route. -/
def serverJsDispatch (staticServes : String → Bool) (method path : String) :
    RouteOutcome :=
  if staticServes path then .staticFile
  else if method == "POST" && path == "/api/process-image" then .processImage
  else if method == "GET" && path == "/api/health" then .health
  else .notFound ⟨404, Json.obj [("error", Json.str "Ruta no encontrada")]⟩

/-! ### Helper lemmas about the handler pipelines -/

/-- `hasSub` finds a pattern placed at the front. -/
theorem hasSub_self_append (pat r : List Char) : hasSub pat (pat ++ r) = true := by
  match hpr : pat ++ r with
  | [] =>
    have h₀ : pat = [] := (List.append_eq_nil.mp hpr).1
    subst h₀
    rfl
  | c :: rest =>
    rw [hasSub_cons, Bool.or_eq_true]
    left
    rw [← hpr]
    exact List.isPrefixOf_iff_prefix.mpr (List.prefix_append pat r)

/-- When the key is present and the reply envelope passes the
`json.error`, candidates, block-reason and finish-reason checks, the
`src/server.js` handler reaches the parse/respond step on the cleaned
trimmed text of the first candidate. -/
theorem serverJs_reaches_respond (b : ReqBody) (env : ServerEnv) (st : Nat)
    (btxt : String) (gj : GeminiJson) (cand : GemCandidate)
    (cs : List GemCandidate) (text : String)
    (hkey : truthyStr (jsOrStr env.geminiApiKey env.googleApiKey) = true)
    (herr : gj.error = none)
    (hcand : gj.candidates = some (cand :: cs))
    (hpf : promptFeedbackBlocked gj = false)
    (hfr : finishReasonFiltered cand = false)
    (htext : textOfCandidate cand = .ok text) :
    serverJsProcessImage b env (.reply st btxt gj) =
      (serverJsRespond (cleanJsonS (trimS text)), true) := by
  unfold serverJsProcessImage serverJsHandleUpstream serverJsHandleReply
    serverJsHandleCandidate
  simp [hkey, herr, hcand, hpf, hfr, htext]

/-- The analogous success-path lemma for `part_002`. -/
theorem part002_reaches_respond (b : ReqBody) (env : ServerEnv) (st : Nat)
    (btxt : String) (gj : GeminiJson) (cand : GemCandidate)
    (cs : List GemCandidate) (text : String)
    (hkey : truthyStr env.geminiApiKey = true)
    (hpf : promptFeedbackBlocked gj = false)
    (hcand : gj.candidates = some (cand :: cs))
    (hfr : finishReasonFiltered cand = false)
    (htext : textOfCandidate cand = .ok text) :
    part002ProcessImage b env (.reply st btxt gj) =
      (part002Respond (cleanJsonS (trimS text)), true) := by
  unfold part002ProcessImage part002HandleReply part002Candidates
  simp [hkey, hpf, hcand, hfr, htext]

/-! ### The claims -/

/-- C2: the markdown fence stripping function (remove every occurrence
of ```` ```json ````, then every occurrence of ```` ``` ````, then trim
whitespace) is idempotent: for every input string, applying it twice
yields the same result as applying it once. -/
theorem c2_cleanJson_idempotent (s : String) :
    cleanJsonS (cleanJsonS s) = cleanJsonS s := by
  show String.mk (cleanL (String.mk (cleanL s.data)).data) = String.mk (cleanL s.data)
  exact congrArg String.mk (cleanL_idem s.data)

/-- C1 counterexample: a record whose string field contains the
three-backtick fence sequence.  The raw generated text is well-formed
JSON and parses to a record with field value `A```B`, but the gateway's
global fence stripping runs before parsing and deletes the backticks
inside the string content, so the 200 body carries the modified record
`AB`: the response is NOT the value obtained by parsing the generated
text. -/
theorem c1_fence_inside_string_counterexample :
    jsonParse "[\x7b\"NOMBRE\":\"A```B\"\x7d]"
        = some (Json.arr [Json.obj [("NOMBRE", Json.str "A```B")]])
    ∧ (serverJsProcessImage ⟨some "imgdata", some "image/png"⟩ ⟨some "key123", none⟩
        (.reply 200 ""
          ⟨none, some [⟨some ⟨[⟨some "[\x7b\"NOMBRE\":\"A```B\"\x7d]"⟩]⟩, none⟩], none⟩)).1
        = ⟨200, Json.arr [Json.obj [("NOMBRE", Json.str "AB")]]⟩
    ∧ Json.arr [Json.obj [("NOMBRE", Json.str "AB")]]
        ≠ Json.arr [Json.obj [("NOMBRE", Json.str "A```B")]] :=
  ⟨rfl, rfl, by simp⟩

/-- C1 (amended): for every valid image submission, if the upstream call
succeeds and the first candidate's generated text contains no
three-backtick sequence and (after trimming) is well-formed JSON whose
value is not `null`, the gateway responds 200 with exactly the value
obtained by parsing that trimmed text — nothing added, removed, modified
or reordered.  (When the text contains fence sequences — as wrapping or
inside string content — they are stripped before parsing, so the
response is the parse of the cleaned text instead.) -/
theorem c1_success_returns_parse_of_trimmed_text (b : ReqBody)
    (env : ServerEnv) (st : Nat) (btxt : String) (gj : GeminiJson)
    (cand : GemCandidate) (cs : List GemCandidate) (text : String) (v : Json)
    (hkey : truthyStr (jsOrStr env.geminiApiKey env.googleApiKey) = true)
    (herr : gj.error = none)
    (hcand : gj.candidates = some (cand :: cs))
    (hpf : promptFeedbackBlocked gj = false)
    (hfr : finishReasonFiltered cand = false)
    (htext : textOfCandidate cand = .ok text)
    (hnofence : hasSub fence text.data = false)
    (hparse : jsonParse (trimS text) = some v)
    (hnotnull : isNullJson v = false) :
    serverJsProcessImage b env (.reply st btxt gj) = (⟨200, v⟩, true) := by
  have h₁ : serverJsRespond (cleanJsonS (trimS text)) = ⟨200, v⟩ := by
    rw [cleanJsonS_trim_of_no_fence text hnofence]
    unfold serverJsRespond
    rw [hparse]
    simp [hnotnull]
  rw [serverJs_reaches_respond b env st btxt gj cand cs text hkey herr hcand
    hpf hfr htext, h₁]

/-- C1 witness: a concrete record array round-trips verbatim. -/
theorem c1_success_witness :
    truthyStr (jsOrStr (some "key123") none) = true
    ∧ hasSub fence "[\x7b\"FECHA\":\"2025/01/01\"\x7d]".data = false
    ∧ jsonParse (trimS "[\x7b\"FECHA\":\"2025/01/01\"\x7d]")
        = some (Json.arr [Json.obj [("FECHA", Json.str "2025/01/01")]])
    ∧ serverJsProcessImage ⟨some "img", some "image/png"⟩ ⟨some "key123", none⟩
        (.reply 200 ""
          ⟨none, some [⟨some ⟨[⟨some "[\x7b\"FECHA\":\"2025/01/01\"\x7d]"⟩]⟩, none⟩], none⟩)
      = (⟨200, Json.arr [Json.obj [("FECHA", Json.str "2025/01/01")]]⟩, true) :=
  ⟨rfl, by decide, rfl,
    c1_success_returns_parse_of_trimmed_text _ _ 200 "" _ _ _ _ _
      rfl rfl rfl rfl rfl rfl (by decide) rfl rfl⟩

/-- C3 counterexample: `src/server.js` has no `imageData` presence check.
With the body field absent but a key configured, the handler still
performs the upstream call (second component `true`) and — here, with a
benign upstream reply — even answers 200, not a 400-class error. -/
theorem c3_serverJs_missing_image_calls_upstream :
    serverJsProcessImage ⟨none, some "image/png"⟩ ⟨some "key123", none⟩
      (.reply 200 "" ⟨none, some [⟨some ⟨[⟨some "[]"⟩]⟩, none⟩], none⟩)
      = (⟨200, Json.arr []⟩, true) := rfl

/-- C3 (amended): only the `part_001` variant validates input presence:
there, every request whose `imageData` is falsy (absent, `null`, or the
empty string) is rejected with 400 `{ error: "No image data provided" }`
and no upstream call is performed.  `src/server.js`, `part_000` and
`part_002` perform no such validation and proceed to call upstream. -/
theorem c3_part001_missing_image_rejected (b : ReqBody) (env : ServerEnv)
    (u : UpstreamOutcome) (h : truthyStr b.imageData = false) :
    part001ProcessImage b env u
      = (⟨400, Json.obj [("error", Json.str "No image data provided")]⟩, false) := by
  unfold part001ProcessImage
  simp [h]

/-- C3 witness. -/
theorem c3_part001_missing_image_witness :
    truthyStr (ReqBody.mk none (some "image/png")).imageData = false
    ∧ part001ProcessImage ⟨none, some "image/png"⟩ ⟨some "key123", none⟩
        (.transportError "never reached")
      = (⟨400, Json.obj [("error", Json.str "No image data provided")]⟩, false) :=
  ⟨rfl, c3_part001_missing_image_rejected _ _ _ rfl⟩

/-- C4: while the upstream credential is absent (both `GEMINI_API_KEY`
and `GOOGLE_API_KEY` falsy), `src/server.js` and `part_002` return a 500
configuration error for every request, perform no upstream call, and the
returned message is a fixed constant independent of the environment (so
it cannot contain any credential material).  (`part_001` behaves the
same via its own 500 branch once its earlier `imageData` presence check
— spec §4.1 step 1 — has passed; see `c3_part001_missing_image_rejected`
for that ordering.) -/
theorem c4_missing_key_config_error_no_call (b : ReqBody) (env : ServerEnv)
    (u : UpstreamOutcome)
    (hg : truthyStr env.geminiApiKey = false)
    (hgo : truthyStr env.googleApiKey = false) :
    serverJsProcessImage b env u = (serverJsErr500 serverJsKeyMissingMsg, false)
    ∧ part002ProcessImage b env u
        = (plainErr500 "GEMINI_API_KEY no está configurada en .env", false)
    ∧ (∀ (b₂ : ReqBody), truthyStr b₂.imageData = true →
        part001ProcessImage b₂ env u
          = (⟨500, Json.obj [("error", Json.str "Server configuration error: Missing API Key")]⟩, false)) := by
  refine ⟨?_, ?_, ?_⟩
  · unfold serverJsProcessImage
    simp [jsOrStr, hg, hgo]
  · unfold part002ProcessImage
    simp [hg]
  · intro b₂ himg
    unfold part001ProcessImage
    simp [himg, hg]

/-- C4 witness. -/
theorem c4_missing_key_witness :
    truthyStr (ServerEnv.mk none none).geminiApiKey = false
    ∧ truthyStr (ServerEnv.mk none none).googleApiKey = false
    ∧ serverJsProcessImage ⟨some "img", some "image/png"⟩ ⟨none, none⟩
        (.transportError "never reached")
      = (serverJsErr500 serverJsKeyMissingMsg, false) :=
  ⟨rfl, rfl,
    (c4_missing_key_config_error_no_call ⟨some "img", some "image/png"⟩
      ⟨none, none⟩ (.transportError "never reached") rfl rfl).1⟩

/-- C5 counterexample: in `part_001` a reply whose generated text is
`"not json"` does NOT produce a 400 `{ error, raw }` response: the
`JSON.parse` failure escapes to the generic catch-all, yielding a 500
whose body has only an `error` field and discards the cleaned text. -/
theorem c5_part001_parse_error_collapses_to_500 :
    part001ProcessImage ⟨some "img", some "image/png"⟩ ⟨some "key123", none⟩
      (.reply 200 "" ⟨none, some [⟨some ⟨[⟨some "not json"⟩]⟩, none⟩], none⟩)
      = (⟨500, Json.obj [("error", Json.str (jsonParseSyntaxErrorMessage "not json"))]⟩, true) := rfl

/-- C5 (amended): in `src/server.js`, `part_000` and `part_002`, a reply
whose generated text is not valid JSON after cleanup yields a 400
response `{ error, raw }` where `raw` is the cleaned text itself (so a
payload containing the literal string `"not json"` in that instance);
`part_001` alone lacks the dedicated catch and collapses the failure to
a generic 500 that discards the text. -/
theorem c5_parse_error_returns_400_with_raw (b : ReqBody) (env : ServerEnv)
    (st : Nat) (btxt : String) (gj : GeminiJson) (cand : GemCandidate)
    (cs : List GemCandidate) (text : String)
    (hkey : truthyStr (jsOrStr env.geminiApiKey env.googleApiKey) = true)
    (herr : gj.error = none)
    (hcand : gj.candidates = some (cand :: cs))
    (hpf : promptFeedbackBlocked gj = false)
    (hfr : finishReasonFiltered cand = false)
    (htext : textOfCandidate cand = .ok text)
    (hparse : jsonParse (cleanJsonS (trimS text)) = none) :
    serverJsProcessImage b env (.reply st btxt gj)
      = (⟨400, Json.obj [("error", Json.str "Error al parsear respuesta del modelo"),
                         ("raw", Json.str (cleanJsonS (trimS text)))]⟩, true)
    ∧ (∀ (b₂ : ReqBody) (env₂ : ServerEnv),
        truthyStr env₂.geminiApiKey = true →
        part002ProcessImage b₂ env₂ (.reply st btxt gj)
          = (⟨400, Json.obj [("error", Json.str "Error al parsear respuesta del modelo"),
                             ("raw", Json.str (cleanJsonS (trimS text)))]⟩, true)) := by
  constructor
  · rw [serverJs_reaches_respond b env st btxt gj cand cs text hkey herr hcand
      hpf hfr htext]
    unfold serverJsRespond
    rw [hparse]
  · intro b₂ env₂ hkey₂
    rw [part002_reaches_respond b₂ env₂ st btxt gj cand cs text hkey₂ hpf hcand
      hfr htext]
    unfold part002Respond
    rw [hparse]

/-- C5 witness: the `"not json"` instance of the spec, with the literal
text surfacing in the `raw` field. -/
theorem c5_parse_error_witness :
    jsonParse (cleanJsonS (trimS "not json")) = none
    ∧ serverJsProcessImage ⟨some "img", some "image/png"⟩ ⟨some "key123", none⟩
        (.reply 200 "" ⟨none, some [⟨some ⟨[⟨some "not json"⟩]⟩, none⟩], none⟩)
      = (⟨400, Json.obj [("error", Json.str "Error al parsear respuesta del modelo"),
                         ("raw", Json.str "not json")]⟩, true) :=
  ⟨rfl,
    (c5_parse_error_returns_400_with_raw ⟨some "img", some "image/png"⟩
      ⟨some "key123", none⟩ 200 ""
      ⟨none, some [⟨some ⟨[⟨some "not json"⟩]⟩, none⟩], none⟩
      ⟨some ⟨[⟨some "not json"⟩]⟩, none⟩ [] "not json"
      rfl rfl rfl rfl rfl rfl rfl).1⟩

/-- C6 counterexample: in `src/server.js` the candidates check precedes
the `promptFeedback` check, so a reply with
`promptFeedback.blockReason = "SAFETY"` but no candidates array yields
the generic invalid-response 500 whose message does not mention
`"SAFETY"`. -/
theorem c6_safety_without_candidates_counterexample :
    (serverJsProcessImage ⟨some "img", some "image/png"⟩ ⟨some "key123", none⟩
        (.reply 200 "" ⟨none, none, some ⟨some "SAFETY"⟩⟩)).1
      = serverJsErr500 invalidModelRespMsg
    ∧ containsStr "SAFETY" invalidModelRespMsg = false :=
  ⟨rfl, by decide⟩

/-- C6 (amended): for an upstream reply with
`promptFeedback.blockReason = "SAFETY"`, `src/server.js` returns the
content-blocked 500 mentioning `"SAFETY"` only when the reply ALSO
carries a non-empty candidates array (and no `json.error`), because its
candidates check runs first; `part_002`, which checks the block reason
first, does so regardless of candidates.  (`part_001` never inspects
`promptFeedback` at all.) -/
theorem c6_safety_block_mentions_safety (b : ReqBody) (env : ServerEnv)
    (st : Nat) (btxt : String) (gj : GeminiJson) (cand : GemCandidate)
    (cs : List GemCandidate)
    (hkey : truthyStr (jsOrStr env.geminiApiKey env.googleApiKey) = true)
    (herr : gj.error = none)
    (hcand : gj.candidates = some (cand :: cs))
    (hpf : promptFeedbackBlocked gj = true)
    (hbr : blockReasonStr gj = "SAFETY") :
    serverJsProcessImage b env (.reply st btxt gj)
      = (serverJsErr500 "Contenido bloqueado por seguridad: SAFETY", true)
    ∧ (∀ (b₂ : ReqBody) (env₂ : ServerEnv) (gj₂ : GeminiJson),
        truthyStr env₂.geminiApiKey = true →
        promptFeedbackBlocked gj₂ = true →
        blockReasonStr gj₂ = "SAFETY" →
        part002ProcessImage b₂ env₂ (.reply st btxt gj₂)
          = (plainErr500 "Contenido bloqueado por seguridad: SAFETY", true))
    ∧ containsStr "SAFETY" "Contenido bloqueado por seguridad: SAFETY" = true := by
  refine ⟨?_, ?_, by decide⟩
  · unfold serverJsProcessImage serverJsHandleUpstream serverJsHandleReply
    simp [hkey, herr, hcand, hpf, hbr]
  · intro b₂ env₂ gj₂ hkey₂ hpf₂ hbr₂
    unfold part002ProcessImage part002HandleReply
    simp [hkey₂, hpf₂, hbr₂]

/-- C6 witness. -/
theorem c6_safety_block_witness :
    truthyStr (jsOrStr (some "key123") none) = true
    ∧ promptFeedbackBlocked ⟨none, some [⟨some ⟨[⟨some "x"⟩]⟩, none⟩], some ⟨some "SAFETY"⟩⟩ = true
    ∧ blockReasonStr ⟨none, some [⟨some ⟨[⟨some "x"⟩]⟩, none⟩], some ⟨some "SAFETY"⟩⟩ = "SAFETY"
    ∧ serverJsProcessImage ⟨some "img", some "image/png"⟩ ⟨some "key123", none⟩
        (.reply 200 "" ⟨none, some [⟨some ⟨[⟨some "x"⟩]⟩, none⟩], some ⟨some "SAFETY"⟩⟩)
      = (serverJsErr500 "Contenido bloqueado por seguridad: SAFETY", true) :=
  ⟨rfl, rfl, rfl,
    (c6_safety_block_mentions_safety ⟨some "img", some "image/png"⟩
      ⟨some "key123", none⟩ 200 ""
      ⟨none, some [⟨some ⟨[⟨some "x"⟩]⟩, none⟩], some ⟨some "SAFETY"⟩⟩
      ⟨some ⟨[⟨some "x"⟩]⟩, none⟩ []
      rfl rfl rfl rfl rfl).1⟩

/-- C7 counterexample: on a non-success upstream status, `src/server.js`
never consults `response.status`; its error path surfaces only the
envelope's `error.message` (`"API Error: ..."`), so the message does not
carry the upstream status code (here 503). -/
theorem c7_serverJs_error_message_lacks_status :
    (serverJsProcessImage ⟨some "img", some "image/png"⟩ ⟨some "key123", none⟩
        (.reply 503 "" ⟨some ⟨some "Service Unavailable"⟩, none, none⟩)).1
      = serverJsErr500 "API Error: Service Unavailable"
    ∧ containsStr "503" "API Error: Service Unavailable" = false :=
  ⟨rfl, by decide⟩

/-- C7 (amended): only `part_001` checks the HTTP status: on a
non-success status it fails with a 500 whose message carries the
upstream status code and the reply body text.  `src/server.js` and
`part_000` surface only the error envelope's message (without the
numeric status); a transport-level failure is converted by every variant
to a 500 carrying the transport error message. -/
theorem c7_upstream_error_signal (b : ReqBody) (env : ServerEnv) (st : Nat)
    (txt : String) (gj : GeminiJson)
    (himg : truthyStr b.imageData = true)
    (hkey : truthyStr env.geminiApiKey = true)
    (hst : (200 ≤ st && st < 300) = false) :
    part001ProcessImage b env (.reply st txt gj)
      = (plainErr500 ("Gemini API Error: " ++ toString st ++ " - " ++ txt), true)
    ∧ containsStr (toString st) ("Gemini API Error: " ++ toString st ++ " - " ++ txt) = true
    ∧ (∀ (b₂ : ReqBody) (env₂ : ServerEnv) (msg : String),
        truthyStr (jsOrStr env₂.geminiApiKey env₂.googleApiKey) = true →
        serverJsProcessImage b₂ env₂ (.transportError msg)
          = (serverJsErr500 msg, true)) := by
  refine ⟨?_, ?_, ?_⟩
  · unfold part001ProcessImage
    simp [himg, hkey, hst]
  · show hasSub (toString st).data
      ("Gemini API Error: " ++ toString st ++ " - " ++ txt).data = true
    rw [String.data_append, String.data_append, String.data_append,
      List.append_assoc, List.append_assoc]
    exact hasSub_append_left _ _ _ (hasSub_self_append _ _)
  · intro b₂ env₂ msg hkey₂
    unfold serverJsProcessImage serverJsHandleUpstream
    simp [hkey₂]

/-- C7 witness. -/
theorem c7_upstream_error_witness :
    truthyStr (ReqBody.mk (some "img") (some "image/png")).imageData = true
    ∧ truthyStr (ServerEnv.mk (some "key123") none).geminiApiKey = true
    ∧ ((200 ≤ 404 && 404 < 300) = false)
    ∧ part001ProcessImage ⟨some "img", some "image/png"⟩ ⟨some "key123", none⟩
        (.reply 404 "model not found" ⟨none, none, none⟩)
      = (plainErr500 ("Gemini API Error: " ++ toString 404 ++ " - " ++ "model not found"), true) :=
  ⟨rfl, rfl, by decide,
    (c7_upstream_error_signal ⟨some "img", some "image/png"⟩
      ⟨some "key123", none⟩ 404 "model not found" ⟨none, none, none⟩
      rfl rfl (by decide)).1⟩

/-- C8: in `src/server.js` any request matching neither the static
middleware, the `POST /api/process-image` route nor `GET /api/health`
reaches the `app.use('*')` catch-all and is answered 404 with the JSON
body `{ error: "Ruta no encontrada" }`.  (`part_001` and `part_002`
register no catch-all and fall back to Express's built-in 404 — the
claim's "equivalent not-found response".) -/
theorem c8_unmatched_route_404 (staticServes : String → Bool)
    (method path : String)
    (hs : staticServes path = false)
    (h₁ : (method == "POST" && path == "/api/process-image") = false)
    (h₂ : (method == "GET" && path == "/api/health") = false) :
    serverJsDispatch staticServes method path
      = .notFound ⟨404, Json.obj [("error", Json.str "Ruta no encontrada")]⟩ := by
  unfold serverJsDispatch
  simp [hs, h₁, h₂]

/-- C8 witness. -/
theorem c8_unmatched_route_witness :
    ((fun (_ : String) => false) "/api/unknown") = false
    ∧ (("GET" == "POST") && ("/api/unknown" == "/api/process-image")) = false
    ∧ (("GET" == "GET") && ("/api/unknown" == "/api/health")) = false
    ∧ serverJsDispatch (fun _ => false) "GET" "/api/unknown"
      = .notFound ⟨404, Json.obj [("error", Json.str "Ruta no encontrada")]⟩ :=
  ⟨rfl, by decide, by decide,
    c8_unmatched_route_404 (fun _ => false) "GET" "/api/unknown"
      rfl (by decide) (by decide)⟩

/-- C9 counterexample: a generated text of `"null"` parses to a JSON
value that is not an array, yet `src/server.js` does NOT respond 200
with it: the success-path log accesses `parsed.length`, which throws a
`TypeError` on `null`, and the catch-all answers 500. -/
theorem c9_null_returns_500_counterexample :
    (serverJsProcessImage ⟨some "img", some "image/png"⟩ ⟨some "key123", none⟩
        (.reply 200 "" ⟨none, some [⟨some ⟨[⟨some "null"⟩]⟩, none⟩], none⟩)).1
      = serverJsErr500 nullLengthTypeErrorMsg := rfl

/-- C9 (amended): the success path performs no array check and no
per-record schema validation: any parsed value other than `null` —
object, string, number, boolean, or array — is returned verbatim with
status 200 by `src/server.js`.  The sole exception is `null`, whose
`parsed.length` log throws and yields a 500 there; `part_001` and
`part_002`, which never touch `parsed.length`, return 200 even for
`null`. -/
theorem c9_success_no_array_check (b : ReqBody) (env : ServerEnv) (st : Nat)
    (btxt : String) (gj : GeminiJson) (cand : GemCandidate)
    (cs : List GemCandidate) (text : String) (v : Json)
    (hkey : truthyStr (jsOrStr env.geminiApiKey env.googleApiKey) = true)
    (herr : gj.error = none)
    (hcand : gj.candidates = some (cand :: cs))
    (hpf : promptFeedbackBlocked gj = false)
    (hfr : finishReasonFiltered cand = false)
    (htext : textOfCandidate cand = .ok text)
    (hparse : jsonParse (cleanJsonS (trimS text)) = some v)
    (hnotnull : isNullJson v = false) :
    serverJsProcessImage b env (.reply st btxt gj) = (⟨200, v⟩, true)
    ∧ (∀ (b₂ : ReqBody) (env₂ : ServerEnv) (gj₂ : GeminiJson)
        (cand₂ : GemCandidate) (cs₂ : List GemCandidate) (text₂ : String),
        truthyStr env₂.geminiApiKey = true →
        promptFeedbackBlocked gj₂ = false →
        gj₂.candidates = some (cand₂ :: cs₂) →
        finishReasonFiltered cand₂ = false →
        textOfCandidate cand₂ = .ok text₂ →
        jsonParse (cleanJsonS (trimS text₂)) = some Json.null →
        part002ProcessImage b₂ env₂ (.reply st btxt gj₂)
          = (⟨200, Json.null⟩, true)) := by
  constructor
  · rw [serverJs_reaches_respond b env st btxt gj cand cs text hkey herr hcand
      hpf hfr htext]
    unfold serverJsRespond
    rw [hparse]
    simp [hnotnull]
  · intro b₂ env₂ gj₂ cand₂ cs₂ text₂ hkey₂ hpf₂ hcand₂ hfr₂ htext₂ hparse₂
    rw [part002_reaches_respond b₂ env₂ st btxt gj₂ cand₂ cs₂ text₂ hkey₂ hpf₂
      hcand₂ hfr₂ htext₂]
    unfold part002Respond
    rw [hparse₂]

/-- C9 witness: a non-array JSON object is returned verbatim with 200. -/
theorem c9_success_no_array_check_witness :
    jsonParse (cleanJsonS (trimS "\x7b\"a\":1\x7d"))
      = some (Json.obj [("a", Json.num "1")])
    ∧ isNullJson (Json.obj [("a", Json.num "1")]) = false
    ∧ serverJsProcessImage ⟨some "img", some "image/png"⟩ ⟨some "key123", none⟩
        (.reply 200 "" ⟨none, some [⟨some ⟨[⟨some "\x7b\"a\":1\x7d"⟩]⟩, none⟩], none⟩)
      = (⟨200, Json.obj [("a", Json.num "1")]⟩, true) :=
  ⟨rfl, rfl,
    (c9_success_no_array_check ⟨some "img", some "image/png"⟩
      ⟨some "key123", none⟩ 200 ""
      ⟨none, some [⟨some ⟨[⟨some "\x7b\"a\":1\x7d"⟩]⟩, none⟩], none⟩
      ⟨some ⟨[⟨some "\x7b\"a\":1\x7d"⟩]⟩, none⟩ [] "\x7b\"a\":1\x7d"
      (Json.obj [("a", Json.num "1")])
      rfl rfl rfl rfl rfl rfl rfl rfl).1⟩

/-- C10: in the variant that validates input presence (`part_001`), an
`imageData` equal to the empty string is treated exactly like an absent
`imageData`: the JavaScript falsiness check rejects both with 400
`{ error: "No image data provided" }` and no upstream call is made. -/
theorem c10_empty_imageData_like_absent (mt : Option String)
    (env : ServerEnv) (u : UpstreamOutcome) :
    part001ProcessImage ⟨some "", mt⟩ env u = part001ProcessImage ⟨none, mt⟩ env u
    ∧ part001ProcessImage ⟨some "", mt⟩ env u
        = (⟨400, Json.obj [("error", Json.str "No image data provided")]⟩, false) :=
  ⟨rfl, rfl⟩
